import Mathlib

/-!
Verification of the account/session state-management core of the
symbol-desktop-wallet repository (the Vuex `account` store module).

The definitions below are a shallow embedding of the store's mutations and
actions.  JavaScript arrays become `List`, `Array.prototype.splice` and
`Array.prototype.findIndex` are embedded with their exact ECMAScript
clamping semantics, the registry object `Record<string, SubscriptionType[]>`
becomes an association list, and the rxjs pipeline of
`REST_ANNOUNCE_PARTIAL` is embedded as a single-emission notification
semantics with the combinators `catchError`, `mapTo`, `timeoutWith` used by
the source, in the source's order.
-/

/-- A signed transaction as the store sees it: identified by its content
hash (the code only ever reads `.hash` and `.payload`). -/
structure SignedTransaction where
  hash : String
  payload : String
deriving DecidableEq, Repr

/-- ECMAScript `Array.prototype.splice` actual start index: a negative
`start` counts from the end (clamped at 0), a positive one is clamped at the
length. -/
def spliceStart (len : Nat) (start : Int) : Nat :=
  (if start < 0 then max (Int.ofNat len + start) 0 else min start (Int.ofNat len)).toNat

/-- ECMAScript `Array.prototype.splice` actual delete count: clamped between
0 and the number of elements from the actual start to the end. -/
def spliceCount (len : Nat) (start deleteCount : Int) : Nat :=
  (min (max deleteCount 0) (Int.ofNat len - Int.ofNat (spliceStart len start))).toNat

/-- `l.splice(start, deleteCount)` as a pure function: first component is
the list of removed elements (the JS return value), second component is the
array's contents after the in-place mutation. -/
def jsSplice (l : List α) (start deleteCount : Int) : List α × List α :=
  ((l.drop (spliceStart l.length start)).take (spliceCount l.length start deleteCount),
   l.take (spliceStart l.length start)
     ++ l.drop (spliceStart l.length start + spliceCount l.length start deleteCount))

/-- `Array.prototype.findIndex`: index of the first match, `-1` when no
element matches. -/
def findIndexJs (p : α → Bool) (l : List α) : Int :=
  match l.findIdx? p with
  | some i => Int.ofNat i
  | none => -1

/-- The `removeSignedTransaction` mutation.  The source reads

  const idx = signed.findIndex((tx) => tx.hash === transaction.hash)
  if (undefined === idx) return
  const remaining = signed.splice(0, idx).concat(
    signed.splice(idx + 1, signed.length - idx - 1))
  Vue.set(state, 'signedTransactions', Array.from(remaining))

`findIndex` returns `-1`, never `undefined`, so the guard never fires and
is omitted here.  Both `splice` calls mutate the same array: the second one
runs on the array already shortened by the first, and its `signed.length`
argument is read after that first mutation. -/
def removeSignedTransaction (signed : List SignedTransaction)
    (transaction : SignedTransaction) : List SignedTransaction :=
  let idx : Int := findIndexJs (fun tx => tx.hash == transaction.hash) signed
  let firstSplice := jsSplice signed 0 idx
  let rest := firstSplice.2
  let secondSplice := jsSplice rest (idx + 1) (Int.ofNat rest.length - idx - 1)
  firstSplice.1 ++ secondSplice.1

/-- `BroadcastResult` from `core/transactions/BroadcastResult`: the uniform
outcome value `(subject, success, errorMessage?)` of every announce path. -/
structure BroadcastResult where
  subject : SignedTransaction
  success : Bool
  errorMessage : Option String
deriving DecidableEq, Repr

/-- Single-emission rxjs observable semantics, as far as the
`REST_ANNOUNCE_PARTIAL` pipe needs it: the stream either emits a value and
completes before the timeout deadline, errors before the deadline, or has
produced nothing by the deadline. -/
inductive Emission (α : Type) where
  | next (value : α)
  | failed (error : String)
  | silent
deriving DecidableEq, Repr

/-- rxjs `catchError(handler)` restricted to a handler of the form
`(error) => of(v)`: an error notification becomes a value emission, value
emissions pass through. -/
def catchError (handler : String → α) : Emission α → Emission α
  | Emission.failed e => Emission.next (handler e)
  | Emission.next v => Emission.next v
  | Emission.silent => Emission.silent

/-- rxjs `mapTo(c)`: every value emission is replaced by the constant `c`;
error notifications are not value emissions and pass through untouched. -/
def mapTo (c : β) : Emission α → Emission β
  | Emission.next _ => Emission.next c
  | Emission.failed e => Emission.failed e
  | Emission.silent => Emission.silent

/-- rxjs `timeoutWith(duration, of(fallback))`: if the upstream has emitted
nothing by the deadline, switch to the fallback emission; otherwise pass the
upstream notification through. -/
def timeoutWith (fallback : α) : Emission α → Emission α
  | Emission.silent => Emission.next fallback
  | Emission.next v => Emission.next v
  | Emission.failed e => Emission.failed e

/-- Outcome of the underlying SDK call
`TransactionService.announceHashLockAggregateBonded` raced against the
configured timeout: the confirmation arrived in time, the call errored in
time, or the deadline passed with neither. -/
inductive BondedOutcome where
  | confirmed
  | errored (error : String)
  | timedOut
deriving DecidableEq, Repr

/-- The source observable of the `REST_ANNOUNCE_PARTIAL` pipe.  A confirmed
broadcast emits the SDK's aggregate transaction value, which the pipe
immediately discards (`mapTo`), so it is embedded as `next none`; the
element type is `Option BroadcastResult` because `catchError`'s branch
injects `BroadcastResult` values into the same stream. -/
def aggregateBondedSource (outcome : BondedOutcome) : Emission (Option BroadcastResult) :=
  match outcome with
  | BondedOutcome.confirmed => Emission.next none
  | BondedOutcome.errored e => Emission.failed e
  | BondedOutcome.timedOut => Emission.silent

/-- The timeout message of `REST_ANNOUNCE_PARTIAL`. -/
def aggregateTimeoutMessage : String := "Aggregate transaction broadcast timed out"

/-- The rxjs pipe of `REST_ANNOUNCE_PARTIAL`, with the four operators in the
source's order (`signedBonded` is the source's `signedPartial`):

  catchError((error) => of(new BroadcastResult(signedPartial, false, error)))
  mapTo(new BroadcastResult(signedPartial, true))
  timeoutWith(AGGREGATE_BROADCAST_TIMEOUT,
    of(new BroadcastResult(signedPartial, false, 'Aggregate transaction broadcast timed out')))

The `tap` side effect is applied by the caller on the resulting emission. -/
def announceBondedPipeline (signedBonded : SignedTransaction)
    (outcome : BondedOutcome) : Emission BroadcastResult :=
  timeoutWith
    (BroadcastResult.mk signedBonded false (some aggregateTimeoutMessage))
    (mapTo (BroadcastResult.mk signedBonded true none)
      (catchError (fun error => some (BroadcastResult.mk signedBonded false (some error)))
        (aggregateBondedSource outcome)))

/-- The action `REST_ANNOUNCE_PARTIAL(issuer, signedLock, signedPartial)`.
Returns the promised `BroadcastResult` (`none` embeds the bare `return` of
the issuer guard, where the promise resolves with `undefined`) together with
the resulting `signedTransactions` sequence.  The `tap` operator sits after
`timeoutWith`, so the two `removeSignedTransaction` commits run on the one
emission every outcome produces.  The pipe cannot reach the caller as an
error notification (`catchError` precedes it) nor stay silent
(`timeoutWith` fills the gap); those two branches are unreachable. -/
def REST_ANNOUNCE_PARTIAL (signed : List SignedTransaction) (issuer : String)
    (signedLock signedBonded : SignedTransaction) (outcome : BondedOutcome) :
    Option BroadcastResult × List SignedTransaction :=
  if issuer = "" ∨ issuer.length ≠ 40 then (none, signed)
  else
    match announceBondedPipeline signedBonded outcome with
    | Emission.next result =>
        (some result,
         removeSignedTransaction (removeSignedTransaction signed signedLock) signedBonded)
    | Emission.failed _ => (none, signed)
    | Emission.silent => (none, signed)

/-- Outcome of the single `transactionHttp.announce` call: either it
resolves, or it rejects with an error whose `toString()` is the given
string. -/
inductive AnnounceOutcome where
  | ok
  | err (error : String)
deriving DecidableEq, Repr

/-- The action `REST_ANNOUNCE_TRANSACTION(signedTransaction)`:

  try { await transactionHttp.announce(signedTransaction)
        commit('removeSignedTransaction', signedTransaction)
        return new BroadcastResult(signedTransaction, true) }
  catch (e) { commit('removeSignedTransaction', signedTransaction)
              return new BroadcastResult(signedTransaction, false, e.toString()) }

The third component counts how many times `announce` was invoked during the
call (the body contains exactly the one un-retried call). -/
def REST_ANNOUNCE_TRANSACTION (signed : List SignedTransaction)
    (signedTransaction : SignedTransaction) (outcome : AnnounceOutcome) :
    BroadcastResult × List SignedTransaction × Nat :=
  match outcome with
  | AnnounceOutcome.ok =>
      (BroadcastResult.mk signedTransaction true none,
       removeSignedTransaction signed signedTransaction, 1)
  | AnnounceOutcome.err e =>
      (BroadcastResult.mk signedTransaction false (some e),
       removeSignedTransaction signed signedTransaction, 1)

/-- A closable websocket handle (an rxjs `Subscription` or an SDK
`IListener`), identified for bookkeeping and carrying the behaviour of its
external `unsubscribe()` / `close()` call: `failsOnClose` means the call
throws. -/
structure SubscriptionHandle where
  id : Nat
  failsOnClose : Bool
deriving DecidableEq, Repr

/-- `SubscriptionType` from the store: one listener handle plus the ordered
stream subscriptions opened on it. -/
structure SubscriptionType where
  listener : SubscriptionHandle
  subscriptions : List SubscriptionHandle
deriving DecidableEq, Repr

/-- One close call observed by a handle: `subscription.unsubscribe()` on a
stream handle, or `listener.close()` on a listener handle. -/
inductive CloseEvent where
  | stream (id : Nat)
  | listenerStop (id : Nat)
deriving DecidableEq, Repr

/-- The subscriptions registry `Record<string, SubscriptionType[]>` as an
association list from plain address to entry sets. -/
abbrev SubscriptionRegistry : Type := List (String × List SubscriptionType)

/-- `state.subscriptions[address] || []`: the entry sets under a key, `[]`
when the key is absent. -/
def registryGet (registry : SubscriptionRegistry) (address : String) :
    List SubscriptionType :=
  match registry.find? (fun p => p.1 == address) with
  | some p => p.2
  | none => []

/-- `Vue.delete(state.subscriptions, address)`: the key is removed. -/
def registryDelete (registry : SubscriptionRegistry) (address : String) :
    SubscriptionRegistry :=
  registry.filter (fun p => p.1 != address)

/-- `Vue.set(state.subscriptions, address, v)`: overwrite the key's value
when present, append the key otherwise. -/
def registrySet (registry : SubscriptionRegistry) (address : String)
    (v : List SubscriptionType) : SubscriptionRegistry :=
  if registry.any (fun p => p.1 == address) then
    registry.map (fun p => if p.1 == address then (address, v) else p)
  else registry ++ [(address, v)]

/-- The `updateSubscriptions` mutation: a `null` payload unsets the address
(`Vue.delete`), otherwise the new entry set is appended to the existing ones
(`[...oldSubscriptions, subscriptions]`). -/
def updateSubscriptions (registry : SubscriptionRegistry) (address : String)
    (payload : Option SubscriptionType) : SubscriptionRegistry :=
  match payload with
  | none => registryDelete registry address
  | some s => registrySet registry address (registryGet registry address ++ [s])

/-- The `SUBSCRIBE(address)` action: no-op on a falsy address; otherwise the
externally opened handle set (`RESTService.subscribeTransactionChannels`,
passed in here as `opened`) is registered under the plain address. -/
def SUBSCRIBE (registry : SubscriptionRegistry) (address : Option String)
    (opened : SubscriptionType) : SubscriptionRegistry :=
  match address with
  | none => registry
  | some a => updateSubscriptions registry a (some opened)

/-- Close the stream handles of one entry set in order
(`for (const subscription of subscriptions) subscription.unsubscribe()`).
Returns the close calls that were made and whether the loop completed; a
throwing `unsubscribe()` (its call is still a made call) aborts the loop,
because the source has no try/catch. -/
def closeStreams : List SubscriptionHandle → List CloseEvent × Bool
  | [] => ([], true)
  | h :: rest =>
    if h.failsOnClose then ([CloseEvent.stream h.id], false)
    else
      let r := closeStreams rest
      (CloseEvent.stream h.id :: r.1, r.2)

/-- Close one entry set: every stream handle, then `listener.close()`. -/
def closeEntry (e : SubscriptionType) : List CloseEvent × Bool :=
  if (closeStreams e.subscriptions).2 = false then ((closeStreams e.subscriptions).1, false)
  else ((closeStreams e.subscriptions).1 ++ [CloseEvent.listenerStop e.listener.id],
        !e.listener.failsOnClose)

/-- Close every entry set in order; a throw while closing one aborts the
entire `for (const subscriptionType of subscriptionTypes)` loop. -/
def closeEntries : List SubscriptionType → List CloseEvent × Bool
  | [] => ([], true)
  | e :: rest =>
    if (closeEntry e).2 = false then ((closeEntry e).1, false)
    else ((closeEntry e).1 ++ (closeEntries rest).1, (closeEntries rest).2)

/-- Result of an `UNSUBSCRIBE(plainAddress)` call: the close calls made, the
registry afterwards, and whether the action rejected (a close failure
propagates out of the action, as the loop is not guarded). -/
structure UnsubscribeResult where
  closeCalls : List CloseEvent
  registry : SubscriptionRegistry
  threw : Bool
deriving DecidableEq, Repr

/-- The `UNSUBSCRIBE(plainAddress)` action: no-op when no entry sets exist
for the address; otherwise close every stream handle then the listener of
every entry set, and only after all closes succeed commit
`updateSubscriptions` with a `null` payload (removing the address).  A close
failure reaches the caller before that commit. -/
def UNSUBSCRIBE (registry : SubscriptionRegistry) (plainAddress : String) :
    UnsubscribeResult :=
  if (registryGet registry plainAddress).length = 0 then ⟨[], registry, false⟩
  else if (closeEntries (registryGet registry plainAddress)).2 = false then
    ⟨(closeEntries (registryGet registry plainAddress)).1, registry, true⟩
  else
    ⟨(closeEntries (registryGet registry plainAddress)).1,
     updateSubscriptions registry plainAddress none, false⟩

/-- `entryOk` holds when every close call of the entry set succeeds. -/
def entryOk (e : SubscriptionType) : Bool :=
  e.subscriptions.all (fun h => !h.failsOnClose) && !e.listener.failsOnClose

/-- The close calls an entry set receives when nothing throws: one per
stream handle in order, then one for the listener. -/
def entryEvents (e : SubscriptionType) : List CloseEvent :=
  e.subscriptions.map (fun h => CloseEvent.stream h.id)
    ++ [CloseEvent.listenerStop e.listener.id]

/-- The stream-handle ids appearing in a list of entry sets. -/
def streamIds (es : List SubscriptionType) : List Nat :=
  es.flatMap (fun e => e.subscriptions.map (fun h => h.id))

/-- The listener-handle ids appearing in a list of entry sets. -/
def listenerIds (es : List SubscriptionType) : List Nat :=
  es.map (fun e => e.listener.id)

/-- `AccountModel` as far as the identity actions read it: a raw address
string and a public key string. -/
structure AccountModel where
  address : String
  publicKey : String
deriving DecidableEq, Repr

/-- The session slice of the account store state: the fields touched by the
identity actions (`initialize` / `uninitialize` / `SET_CURRENT_ACCOUNT` /
`SET_CURRENT_SIGNER` / `RESET_CURRENT_ACCOUNT`).  No other action of the
module commits to `currentAccountAddress`, `currentSignerAddress` or
`isCosignatoryMode`.  `initFlag` embeds the source's `initialized` field.
Addresses are abstract (`Nat`), produced by the SDK's address derivations. -/
structure SessionState where
  initFlag : Bool
  currentAccount : Option AccountModel
  currentAccountAddress : Option Nat
  currentSignerAddress : Option Nat
  isCosignatoryMode : Bool
deriving DecidableEq, Repr

/-- The SDK address derivations the store calls:
`Address.createFromPublicKey(pk, networkType)` (with the network type
baked in) and `Address.createFromRawAddress(raw)`. -/
structure AddressEnv where
  fromPublicKey : String → Nat
  fromRawAddress : String → Nat

/-- The initial `accountState` object (everything null / false / empty). -/
def initialSessionState : SessionState :=
  { initFlag := false
    currentAccount := none
    currentAccountAddress := none
    currentSignerAddress := none
    isCosignatoryMode := false }

/-- The error message thrown on an empty public key. -/
def emptyPublicKeyMessage : String :=
  "Public Key must be provided when calling account/SET_CURRENT_SIGNER!"

/-- The `SET_CURRENT_SIGNER({ publicKey })` action, restricted to the
session fields.  Returns the state after the call and the error it rejects
with, if any.  Order follows the source: the empty-key throw, then the
derivation of the signer address and the same-signer no-op check, then
(first touching `currentAccount.address`, a `TypeError` when
`currentAccount` is null) the three commits `currentSignerAddress`,
`currentAccountAddress`, `isCosignatoryMode`.  The later subscription and
load steps do not touch these fields. -/
def SET_CURRENT_SIGNER (env : AddressEnv) (s : SessionState) (publicKey : String) :
    SessionState × Option String :=
  if publicKey = "" then (s, some emptyPublicKeyMessage)
  else
    let signerAddress := env.fromPublicKey publicKey
    if s.currentSignerAddress = some signerAddress then (s, none)
    else
      match s.currentAccount with
      | none => (s, some "TypeError: cannot read address of null")
      | some currentAccount =>
        let accountAddress := env.fromRawAddress currentAccount.address
        ({ s with
            currentSignerAddress := some signerAddress
            currentAccountAddress := some accountAddress
            isCosignatoryMode := decide (signerAddress ≠ accountAddress) }, none)

/-- The `initialize({ address })` action body: a falsy / empty address is a
no-op, otherwise `setInitialized(true)` is committed. -/
def INITIALIZE (s : SessionState) (address : String) : SessionState :=
  if address = "" then s else { s with initFlag := true }

/-- The `uninitialize({ address })` action body restricted to the session
fields (its `UNSUBSCRIBE` and transaction reset do not touch them):
`setInitialized(false)`. -/
def UNINITIALIZE (s : SessionState) : SessionState :=
  { s with initFlag := false }

/-- The `SET_CURRENT_ACCOUNT(currentAccount)` action: no-op when the
previous account has the same raw address; otherwise commit
`currentAccount`, dispatch `SET_CURRENT_SIGNER` with the account's public
key (an error there propagates, leaving the already-committed
`currentAccount` in place), then dispatch `initialize` with the plain
account address (a plain address of a derived `Address` is a nonempty
40-character string, so `setInitialized(true)` is reached). -/
def SET_CURRENT_ACCOUNT (env : AddressEnv) (s : SessionState)
    (currentAccount : AccountModel) : SessionState × Option String :=
  if s.currentAccount.map (fun a => a.address) = some currentAccount.address then (s, none)
  else
    let s1 := { s with currentAccount := some currentAccount }
    let r := SET_CURRENT_SIGNER env s1 currentAccount.publicKey
    match r.2 with
    | some e => (r.1, some e)
    | none => ({ r.1 with initFlag := true }, none)

/-- The `RESET_CURRENT_ACCOUNT` action: commits `currentAccount`,
`currentAccountAddress` and `currentSignerAddress` back to null — and
nothing else; in particular `isCosignatoryMode` keeps its value. -/
def RESET_CURRENT_ACCOUNT (s : SessionState) : SessionState :=
  { s with
      currentAccount := none
      currentAccountAddress := none
      currentSignerAddress := none }

/-- One store operation on the session fields.  The remaining actions of the
module never commit to any `SessionState` field. -/
inductive SessionStep : SessionState → SessionState → Prop
  | setSigner (env : AddressEnv) (pk : String) (s : SessionState) :
      SessionStep s (SET_CURRENT_SIGNER env s pk).1
  | setAccount (env : AddressEnv) (acc : AccountModel) (s : SessionState) :
      SessionStep s (SET_CURRENT_ACCOUNT env s acc).1
  | reset (s : SessionState) : SessionStep s (RESET_CURRENT_ACCOUNT s)
  | sessionInit (s : SessionState) (address : String) :
      SessionStep s (INITIALIZE s address)
  | sessionUninit (s : SessionState) : SessionStep s (UNINITIALIZE s)

/-- The store operations with `RESET_CURRENT_ACCOUNT` excluded. -/
inductive SessionStepNR : SessionState → SessionState → Prop
  | setSigner (env : AddressEnv) (pk : String) (s : SessionState) :
      SessionStepNR s (SET_CURRENT_SIGNER env s pk).1
  | setAccount (env : AddressEnv) (acc : AccountModel) (s : SessionState) :
      SessionStepNR s (SET_CURRENT_ACCOUNT env s acc).1
  | sessionInit (s : SessionState) (address : String) :
      SessionStepNR s (INITIALIZE s address)
  | sessionUninit (s : SessionState) : SessionStepNR s (UNINITIALIZE s)

/-- The claimed invariant: the cosignatory flag tracks whether the signer
address differs from the account address. -/
def cosignatoryInvariant (s : SessionState) : Prop :=
  s.isCosignatoryMode = true ↔ s.currentSignerAddress ≠ s.currentAccountAddress

/-- A 40-character issuer public key, as the issuer guard of
`REST_ANNOUNCE_PARTIAL` expects. -/
def fortyCharIssuer : String := String.mk (List.replicate 40 'A')

/-- A registry with one entry set under "A" whose second stream handle
throws on close (handles 0,1,2 are streams, 3 is the listener). -/
def failingCloseRegistry : SubscriptionRegistry :=
  [("A", [⟨⟨3, false⟩, [⟨0, false⟩, ⟨1, true⟩, ⟨2, false⟩]⟩])]

/-- A registry with one entry set under "A" whose handles all close
cleanly (handle 0 is a stream, 1 the listener). -/
def cleanCloseRegistry : SubscriptionRegistry :=
  [("A", [⟨⟨1, false⟩, [⟨0, false⟩]⟩])]

/-- An entry set whose listener throws on close. -/
def failingOpenedEntry : SubscriptionType := ⟨⟨0, true⟩, []⟩

/-- An entry set that closes cleanly (stream handle 0, listener 1). -/
def cleanOpenedEntry : SubscriptionType := ⟨⟨1, false⟩, [⟨0, false⟩]⟩

/-- A concrete address environment: every public key derives to address 1,
every raw address string to address 2. -/
def demoAddressEnv : AddressEnv :=
  { fromPublicKey := fun _ => 1, fromRawAddress := fun _ => 2 }

/-- A concrete account model. -/
def demoAccount : AccountModel := { address := "RAW-ADDRESS", publicKey := "PUBKEY" }

/-- The session state after `SET_CURRENT_ACCOUNT(demoAccount)` under
`demoAddressEnv`: signer address 1, account address 2, cosignatory mode on. -/
def cosignatorySessionState : SessionState :=
  { initFlag := true
    currentAccount := some demoAccount
    currentAccountAddress := some 2
    currentSignerAddress := some 1
    isCosignatoryMode := true }

/-- The state `RESET_CURRENT_ACCOUNT` leaves behind from
`cosignatorySessionState`: both addresses null, the cosignatory flag still
set. -/
def resetSessionState : SessionState :=
  { initFlag := true
    currentAccount := none
    currentAccountAddress := none
    currentSignerAddress := none
    isCosignatoryMode := true }

/-! ## Helper lemmas about the embedded JavaScript primitives -/

theorem spliceStart_zero (n : Nat) : spliceStart n 0 = 0 := by
  simp only [spliceStart, if_neg (by norm_num : ¬(0 : Int) < 0)]
  omega

theorem spliceCount_zero_negone (n : Nat) : spliceCount n 0 (-1) = 0 := by
  simp only [spliceCount, spliceStart_zero, Int.ofNat_eq_coe]
  omega

theorem spliceCount_zero_len (n : Nat) : spliceCount n 0 ((n : Int)) = n := by
  simp only [spliceCount, spliceStart_zero, Int.ofNat_eq_coe]
  omega

theorem jsSplice_zero_negone (l : List α) : jsSplice l 0 (-1) = ([], l) := by
  simp [jsSplice, spliceStart_zero, spliceCount_zero_negone]

theorem jsSplice_zero_len (l : List α) : jsSplice l 0 ((l.length : Int)) = (l, []) := by
  simp [jsSplice, spliceStart_zero, spliceCount_zero_len]

/-! ## Transaction stage claims -/

/-- C1: the claim states that `removeSignedTransaction` removes exactly the
first entry whose hash matches and preserves the relative order of the
remaining entries, so that removing T2 from [T1, T2, T3] yields [T1, T3].
The code evaluates to [T1] instead: both `splice` calls mutate the same
array, so the second splice starts past the elements it was meant to keep
and T3 is lost together with T2.  The in-code comments ("find transaction
by hash and delete", "skip idx") and the spec agree on the intent; the code
is a slip. -/
theorem removeSignedTransaction_middle_drops_tail :
    removeSignedTransaction
      [⟨"h1", "p1"⟩, ⟨"h2", "p2"⟩, ⟨"h3", "p3"⟩] ⟨"h2", "p2"⟩
      = [⟨"h1", "p1"⟩] := by decide

/-- C9: unsigning with an identity whose content hash matches no signed
transaction leaves the `signedTransactions` sequence unchanged in value and
raises no error.  (`findIndex` yields -1; `splice(0, -1)` removes nothing
and `splice(0, length)` removes and returns the whole array, so the
reassembled value is the original sequence.) -/
theorem removeSignedTransaction_no_match_noop
    (signed : List SignedTransaction) (transaction : SignedTransaction)
    (h : ∀ t ∈ signed, t.hash ≠ transaction.hash) :
    removeSignedTransaction signed transaction = signed := by
  have hfind : signed.findIdx? (fun tx => tx.hash == transaction.hash) = none := by
    rw [List.findIdx?_eq_none_iff]
    intro t ht
    simpa using h t ht
  have hidx : findIndexJs (fun tx => tx.hash == transaction.hash) signed = -1 := by
    simp [findIndexJs, hfind]
  have hlen : Int.ofNat signed.length - (-1) - 1 = Int.ofNat signed.length := by omega
  simp only [removeSignedTransaction, hidx, jsSplice_zero_negone,
    neg_add_cancel, hlen, jsSplice_zero_len]
  simp [jsSplice_zero_len]

/-- Witness for C9 at a concrete input. -/
theorem removeSignedTransaction_no_match_noop_witness :
    (∀ t ∈ [(⟨"h1", "p1"⟩ : SignedTransaction)], t.hash ≠ "h9")
    ∧ removeSignedTransaction [⟨"h1", "p1"⟩] ⟨"h9", "p9"⟩ = [⟨"h1", "p1"⟩] :=
  ⟨by decide, removeSignedTransaction_no_match_noop _ ⟨"h9", "p9"⟩ (by decide)⟩

/-! ## Broadcast orchestrator claims -/

/-- C2: the claim states that an underlying error of the aggregate-bonded
announce yields a `BroadcastResult` with `success = false` carrying the
error.  The code places `catchError` before `mapTo`: `catchError` turns the
error into a value emission carrying the intended failure result, and
`mapTo` then replaces that emission — like every other value emission —
with the success result, so the caller receives `success = true` and no
error message.  The failure result constructed inside `catchError` is dead,
which shows the slip.  (The confirmed and timeout branches behave as
claimed, and no branch throws.) -/
theorem announceBonded_error_reported_as_success :
    (REST_ANNOUNCE_PARTIAL [] fortyCharIssuer ⟨"hL", "pL"⟩ ⟨"hB", "pB"⟩
        (BondedOutcome.errored "connection refused")).1
      = some (BroadcastResult.mk ⟨"hB", "pB"⟩ true none) := by decide

/-- C3: in all three outcome branches of `REST_ANNOUNCE_PARTIAL` (success,
underlying error, timeout) the two `removeSignedTransaction` commits — one
for the lock, one for the aggregate-bonded transaction — run exactly once,
because `tap` sits after `catchError` and `timeoutWith` and every outcome
reaches the caller as the pipe's single value emission. -/
theorem announceBonded_always_prunes_signed
    (signed : List SignedTransaction) (issuer : String)
    (signedLock signedBonded : SignedTransaction) (outcome : BondedOutcome)
    (h : issuer.length = 40) :
    (REST_ANNOUNCE_PARTIAL signed issuer signedLock signedBonded outcome).2
      = removeSignedTransaction (removeSignedTransaction signed signedLock) signedBonded := by
  have hguard : ¬(issuer = "" ∨ issuer.length ≠ 40) := by
    rintro (rfl | hlen)
    · simp at h
    · exact hlen h
  unfold REST_ANNOUNCE_PARTIAL
  rw [if_neg hguard]
  cases outcome <;> rfl

/-- Witness for C3 at a concrete input. -/
theorem announceBonded_always_prunes_signed_witness :
    fortyCharIssuer.length = 40
    ∧ (REST_ANNOUNCE_PARTIAL [⟨"hL", "pL"⟩, ⟨"hB", "pB"⟩] fortyCharIssuer
          ⟨"hL", "pL"⟩ ⟨"hB", "pB"⟩ BondedOutcome.timedOut).2
        = removeSignedTransaction
            (removeSignedTransaction [⟨"hL", "pL"⟩, ⟨"hB", "pB"⟩] ⟨"hL", "pL"⟩)
            ⟨"hB", "pB"⟩ :=
  ⟨by decide,
   announceBonded_always_prunes_signed _ fortyCharIssuer _ _ _ (by decide)⟩

/-- C10: when the issuer argument is falsy or not 40 characters long,
`REST_ANNOUNCE_PARTIAL` returns before announcing anything: the promise
resolves with no `BroadcastResult` and the `signedTransactions` sequence is
untouched (the result is the same whatever the network outcome would have
been, so nothing was submitted). -/
theorem announceBonded_invalid_issuer_noop
    (signed : List SignedTransaction) (issuer : String)
    (signedLock signedBonded : SignedTransaction) (outcome : BondedOutcome)
    (h : issuer.length ≠ 40) :
    REST_ANNOUNCE_PARTIAL signed issuer signedLock signedBonded outcome
      = (none, signed) := by
  unfold REST_ANNOUNCE_PARTIAL
  rw [if_pos (Or.inr h)]

/-- Witness for C10 at a concrete input. -/
theorem announceBonded_invalid_issuer_noop_witness :
    ("badIssuer" : String).length ≠ 40
    ∧ REST_ANNOUNCE_PARTIAL [⟨"hL", "pL"⟩] "badIssuer" ⟨"hL", "pL"⟩ ⟨"hB", "pB"⟩
        BondedOutcome.confirmed = (none, [⟨"hL", "pL"⟩]) :=
  ⟨by decide, announceBonded_invalid_issuer_noop _ "badIssuer" _ _ _ (by decide)⟩

/-- C7: a failed single announce still removes the transaction from
`signedTransactions` (the same removal the success path performs), returns
a failure `BroadcastResult` carrying the error description as a value
rather than throwing, and invokes `announce` exactly once. -/
theorem announceTransaction_failure_prunes_and_returns_value
    (signed : List SignedTransaction) (signedTransaction : SignedTransaction)
    (e : String) :
    (REST_ANNOUNCE_TRANSACTION signed signedTransaction (AnnounceOutcome.err e)).1
        = BroadcastResult.mk signedTransaction false (some e)
    ∧ (REST_ANNOUNCE_TRANSACTION signed signedTransaction (AnnounceOutcome.err e)).2.1
        = removeSignedTransaction signed signedTransaction
    ∧ (REST_ANNOUNCE_TRANSACTION signed signedTransaction (AnnounceOutcome.err e)).2.1
        = (REST_ANNOUNCE_TRANSACTION signed signedTransaction AnnounceOutcome.ok).2.1
    ∧ (REST_ANNOUNCE_TRANSACTION signed signedTransaction (AnnounceOutcome.err e)).2.2 = 1 :=
  ⟨rfl, rfl, rfl, rfl⟩

/-! ## Session controller claims -/

/-- C8: calling `SET_CURRENT_SIGNER` with an empty public key fails with
the InvalidArgument error before any state mutation: the state is returned
exactly as it was, whatever it contained. -/
theorem setCurrentSigner_empty_key_rejects_unchanged
    (env : AddressEnv) (s : SessionState) :
    SET_CURRENT_SIGNER env s "" = (s, some emptyPublicKeyMessage) := by
  unfold SET_CURRENT_SIGNER
  rw [if_pos rfl]

/-! ## Subscription registry lemmas -/

theorem closeStreams_ok (hs : List SubscriptionHandle)
    (h : ∀ x ∈ hs, x.failsOnClose = false) :
    closeStreams hs = (hs.map (fun x => CloseEvent.stream x.id), true) := by
  induction hs with
  | nil => rfl
  | cons a rest ih =>
    have ha : a.failsOnClose = false := h a (List.mem_cons_self a rest)
    simp [closeStreams, ha, ih (fun x hx => h x (List.mem_cons_of_mem a hx))]

theorem closeStreams_snd_true (hs : List SubscriptionHandle)
    (h : (closeStreams hs).2 = true) : ∀ x ∈ hs, x.failsOnClose = false := by
  induction hs with
  | nil => intro x hx; cases hx
  | cons a rest ih =>
    by_cases ha : a.failsOnClose
    · rw [closeStreams] at h
      simp [ha] at h
    · rw [closeStreams] at h
      simp only [ha, if_false] at h
      intro x hx
      rcases List.mem_cons.mp hx with rfl | hx2
      · simpa using ha
      · exact ih h x hx2

theorem closeEntry_ok (e : SubscriptionType) (h : entryOk e = true) :
    closeEntry e = (entryEvents e, true) := by
  rw [entryOk, Bool.and_eq_true] at h
  obtain ⟨h1, h2⟩ := h
  have hs : ∀ x ∈ e.subscriptions, x.failsOnClose = false := by
    intro x hx
    simpa using List.all_eq_true.mp h1 x hx
  have hl : e.listener.failsOnClose = false := by simpa using h2
  simp [closeEntry, closeStreams_ok _ hs, hl, entryEvents]

theorem closeEntry_snd_true (e : SubscriptionType)
    (h : (closeEntry e).2 = true) : entryOk e = true := by
  rw [closeEntry] at h
  by_cases hcs : (closeStreams e.subscriptions).2 = false
  · simp [hcs] at h
  · rw [if_neg hcs] at h
    have hstr := closeStreams_snd_true e.subscriptions
      (by cases hx : (closeStreams e.subscriptions).2 with
          | true => rfl
          | false => exact absurd hx hcs)
    rw [entryOk, Bool.and_eq_true]
    constructor
    · rw [List.all_eq_true]
      intro x hx
      simpa using hstr x hx
    · simpa using h

theorem closeEntries_ok (es : List SubscriptionType)
    (h : ∀ e ∈ es, entryOk e = true) :
    closeEntries es = (es.flatMap entryEvents, true) := by
  induction es with
  | nil => rfl
  | cons e rest ih =>
    have he := closeEntry_ok e (h e (List.mem_cons_self e rest))
    simp [closeEntries, he, ih (fun x hx => h x (List.mem_cons_of_mem e hx))]

theorem closeEntries_snd_true (es : List SubscriptionType)
    (h : (closeEntries es).2 = true) : ∀ e ∈ es, entryOk e = true := by
  induction es with
  | nil => intro e he; cases he
  | cons e rest ih =>
    rw [closeEntries] at h
    by_cases hce : (closeEntry e).2 = false
    · simp [hce] at h
    · rw [if_neg hce] at h
      intro x hx
      rcases List.mem_cons.mp hx with rfl | hx2
      · exact closeEntry_snd_true x
          (by cases hy : (closeEntry x).2 with
              | true => rfl
              | false => exact absurd hy hce)
      · exact ih h x hx2

theorem registryGet_cons (p : String × List SubscriptionType)
    (rest : SubscriptionRegistry) (a : String) :
    registryGet (p :: rest) a = if p.1 = a then p.2 else registryGet rest a := by
  by_cases hp : p.1 = a
  · rw [if_pos hp]
    unfold registryGet
    rw [List.find?_cons_of_pos _ (by simpa using hp)]
  · rw [if_neg hp]
    unfold registryGet
    rw [List.find?_cons_of_neg _ (by simpa using hp)]

theorem registryGet_map_set (r : SubscriptionRegistry) (a : String)
    (v : List SubscriptionType) (hany : r.any (fun p => p.1 == a) = true) :
    registryGet (r.map (fun p => if p.1 == a then (a, v) else p)) a = v := by
  induction r with
  | nil => simp at hany
  | cons p rest ih =>
    by_cases hp : p.1 = a
    · simp [registryGet_cons, hp]
    · simp only [List.map_cons]
      rw [if_neg (by simpa using hp), registryGet_cons, if_neg hp]
      exact ih (by simpa [hp] using hany)

theorem registryGet_append_absent (r : SubscriptionRegistry) (a : String)
    (v : List SubscriptionType) (hnone : r.any (fun p => p.1 == a) = false) :
    registryGet (r ++ [(a, v)]) a = v := by
  induction r with
  | nil => simp [registryGet_cons]
  | cons p rest ih =>
    have hp : ¬ p.1 = a := by
      intro he
      simp [he] at hnone
    rw [List.cons_append, registryGet_cons, if_neg hp]
    exact ih (by simpa [hp] using hnone)

theorem registryGet_set_self (r : SubscriptionRegistry) (a : String)
    (v : List SubscriptionType) : registryGet (registrySet r a v) a = v := by
  unfold registrySet
  by_cases hany : r.any (fun p => p.1 == a) = true
  · rw [if_pos hany]
    exact registryGet_map_set r a v hany
  · rw [if_neg hany]
    exact registryGet_append_absent r a v (Bool.eq_false_iff.mpr hany)

theorem registryGet_subscribe (registry : SubscriptionRegistry) (a : String)
    (opened : SubscriptionType) :
    registryGet (SUBSCRIBE registry (some a) opened) a
      = registryGet registry a ++ [opened] := by
  simp only [SUBSCRIBE, updateSubscriptions]
  exact registryGet_set_self _ _ _

theorem find?_registryDelete (r : SubscriptionRegistry) (a : String) :
    (registryDelete r a).find? (fun p => p.1 == a) = none := by
  rw [List.find?_eq_none]
  intro x hx
  have hm := List.mem_filter.mp hx
  simpa using hm.2

theorem count_stream_map (hs : List SubscriptionHandle) (i : Nat) :
    (hs.map (fun x => CloseEvent.stream x.id)).count (CloseEvent.stream i)
      = (hs.map (fun x => x.id)).count i := by
  induction hs with
  | nil => rfl
  | cons a rest ih => simp [List.count_cons, ih]

theorem count_listener_in_stream_map (hs : List SubscriptionHandle) (i : Nat) :
    (hs.map (fun x => CloseEvent.stream x.id)).count (CloseEvent.listenerStop i) = 0 := by
  induction hs with
  | nil => rfl
  | cons a rest ih => simp [List.count_cons, ih]

theorem count_stream_entryEvents (e : SubscriptionType) (i : Nat) :
    (entryEvents e).count (CloseEvent.stream i)
      = (e.subscriptions.map (fun x => x.id)).count i := by
  simp [entryEvents, List.count_append, count_stream_map, List.count_cons]

theorem count_listener_entryEvents (e : SubscriptionType) (i : Nat) :
    (entryEvents e).count (CloseEvent.listenerStop i)
      = if e.listener.id = i then 1 else 0 := by
  rw [entryEvents, List.count_append, count_listener_in_stream_map]
  by_cases h : e.listener.id = i <;> simp [List.count_cons, h]

theorem count_stream_flatMap_zero (es : List SubscriptionType) (i : Nat)
    (h : i ∉ streamIds es) :
    (es.flatMap entryEvents).count (CloseEvent.stream i) = 0 := by
  induction es with
  | nil => rfl
  | cons e rest ih =>
    rw [List.flatMap_cons, List.count_append, count_stream_entryEvents]
    have h1 : i ∉ e.subscriptions.map (fun x => x.id) := by
      intro hm
      apply h
      simp only [streamIds, List.flatMap_cons, List.mem_append]
      exact Or.inl hm
    have h2 : i ∉ streamIds rest := by
      intro hm
      apply h
      simp only [streamIds, List.flatMap_cons, List.mem_append]
      exact Or.inr hm
    rw [List.count_eq_zero.mpr h1, ih h2]

theorem count_listener_flatMap_zero (es : List SubscriptionType) (i : Nat)
    (h : i ∉ listenerIds es) :
    (es.flatMap entryEvents).count (CloseEvent.listenerStop i) = 0 := by
  induction es with
  | nil => rfl
  | cons e rest ih =>
    rw [List.flatMap_cons, List.count_append, count_listener_entryEvents]
    have h1 : ¬ e.listener.id = i := by
      intro he
      exact h (by simp [listenerIds, he])
    have h2 : i ∉ listenerIds rest := by
      intro hm
      apply h
      simp only [listenerIds, List.map_cons, List.mem_cons]
      exact Or.inr (by simpa [listenerIds] using hm)
    rw [if_neg h1, ih h2]

/-! ## Subscription registry claims -/

/-- C4 counterexample: the claim states that a failure while closing one
handle does not prevent the closing of the remaining handles or the removal
of the address.  In the code the close loop has no try/catch, so when the
stream handle 1 throws on close, stream handle 2 and listener handle 3
receive no close call at all, the action rejects, and the address stays in
the registry. -/
theorem unsubscribe_close_failure_aborts_cleanup :
    (UNSUBSCRIBE failingCloseRegistry "A").threw = true
    ∧ (UNSUBSCRIBE failingCloseRegistry "A").registry = failingCloseRegistry
    ∧ (UNSUBSCRIBE failingCloseRegistry "A").closeCalls
        = [CloseEvent.stream 0, CloseEvent.stream 1] := by decide

/-- C4 as amended: `unsubscribe(address)` closes the stream handles then the
listener handle of every entry set in order only as long as every close
succeeds; when all of them succeed every handle receives exactly one close
call and the address is removed from the registry, but the first failing
close makes the error propagate, leaves the remaining handles unclosed and
leaves the registry — including the address's entry sets — unchanged
(fail-fast, not best-effort). -/
theorem unsubscribe_fail_fast (registry : SubscriptionRegistry) (addr : String)
    (hne : registryGet registry addr ≠ []) :
    ((∀ e ∈ registryGet registry addr, entryOk e = true) →
        (UNSUBSCRIBE registry addr).closeCalls
            = (registryGet registry addr).flatMap entryEvents
        ∧ (UNSUBSCRIBE registry addr).registry = registryDelete registry addr
        ∧ (UNSUBSCRIBE registry addr).threw = false)
    ∧ ((¬ ∀ e ∈ registryGet registry addr, entryOk e = true) →
        (UNSUBSCRIBE registry addr).threw = true
        ∧ (UNSUBSCRIBE registry addr).registry = registry) := by
  have hlen : ¬ (registryGet registry addr).length = 0 := by
    simpa [List.length_eq_zero] using hne
  constructor
  · intro hok
    have hc := closeEntries_ok _ hok
    unfold UNSUBSCRIBE
    rw [if_neg hlen, hc, if_neg (by simp)]
    exact ⟨rfl, rfl, rfl⟩
  · intro hbad
    have hsnd : (closeEntries (registryGet registry addr)).2 = false := by
      cases hx : (closeEntries (registryGet registry addr)).2 with
      | false => rfl
      | true => exact absurd (closeEntries_snd_true _ hx) hbad
    unfold UNSUBSCRIBE
    rw [if_neg hlen, if_pos hsnd]
    exact ⟨rfl, rfl⟩

/-- Witness for C4 at a concrete input: one entry set under "A", all closes
succeed, so both handles get closed and the address disappears. -/
theorem unsubscribe_fail_fast_witness :
    (UNSUBSCRIBE cleanCloseRegistry "A").closeCalls
        = [CloseEvent.stream 0, CloseEvent.listenerStop 1]
    ∧ (UNSUBSCRIBE cleanCloseRegistry "A").registry = []
    ∧ (UNSUBSCRIBE cleanCloseRegistry "A").threw = false := by
  have h := (unsubscribe_fail_fast cleanCloseRegistry "A" (by decide)).1 (by decide)
  refine ⟨?_, ?_, h.2.2⟩
  · rw [h.1]
    decide
  · rw [h.2.1]
    decide

/-- C5 counterexample: the claim states that subscribe(addr) followed by
unsubscribe(addr) always leaves no registry entry for addr.  With an entry
set whose listener throws on close, the unsubscribe aborts before its
registry commit and the address keeps its entry. -/
theorem subscribe_unsubscribe_close_failure_leaves_entry :
    (UNSUBSCRIBE (SUBSCRIBE [] (some "A") failingOpenedEntry) "A").registry.find?
        (fun p => p.1 == "A") = some ("A", [failingOpenedEntry])
    ∧ (UNSUBSCRIBE (SUBSCRIBE [] (some "A") failingOpenedEntry) "A").threw = true := by
  decide

/-- C5 as amended: provided no handle registered under the address fails to
close (and the freshly opened handles are distinct from each other and from
the already-registered ones), `subscribe(addr)` followed by
`unsubscribe(addr)` leaves no registry entry for `addr`, and every stream
handle and the listener handle opened during the subscribe receive exactly
one close call. -/
theorem subscribe_unsubscribe_roundtrip (registry : SubscriptionRegistry)
    (a : String) (opened : SubscriptionType)
    (hOld : ∀ e ∈ registryGet registry a, entryOk e = true)
    (hNew : entryOk opened = true)
    (hNodup : (opened.subscriptions.map (fun x => x.id)).Nodup)
    (hFreshStreams : ∀ x ∈ opened.subscriptions, x.id ∉ streamIds (registryGet registry a))
    (hFreshListener : opened.listener.id ∉ listenerIds (registryGet registry a)) :
    ((UNSUBSCRIBE (SUBSCRIBE registry (some a) opened) a).registry.find?
        (fun p => p.1 == a) = none)
    ∧ (∀ x ∈ opened.subscriptions,
        (UNSUBSCRIBE (SUBSCRIBE registry (some a) opened) a).closeCalls.count
          (CloseEvent.stream x.id) = 1)
    ∧ (UNSUBSCRIBE (SUBSCRIBE registry (some a) opened) a).closeCalls.count
        (CloseEvent.listenerStop opened.listener.id) = 1 := by
  have hga : registryGet (SUBSCRIBE registry (some a) opened) a
      = registryGet registry a ++ [opened] := registryGet_subscribe registry a opened
  have hAllOk : ∀ e ∈ registryGet registry a ++ [opened], entryOk e = true := by
    intro e he
    rcases List.mem_append.mp he with h1 | h1
    · exact hOld e h1
    · rw [List.mem_singleton.mp h1]
      exact hNew
  have hne : ¬ (registryGet (SUBSCRIBE registry (some a) opened) a).length = 0 := by
    rw [hga]
    simp
  have hc : closeEntries (registryGet (SUBSCRIBE registry (some a) opened) a)
      = ((registryGet registry a ++ [opened]).flatMap entryEvents, true) := by
    rw [hga]
    exact closeEntries_ok _ hAllOk
  have hres : UNSUBSCRIBE (SUBSCRIBE registry (some a) opened) a
      = ⟨(registryGet registry a).flatMap entryEvents ++ entryEvents opened,
         updateSubscriptions (SUBSCRIBE registry (some a) opened) a none, false⟩ := by
    unfold UNSUBSCRIBE
    rw [if_neg hne, hc, if_neg (by simp)]
    simp [List.flatMap_append]
  refine ⟨?_, ?_, ?_⟩
  · rw [hres]
    exact find?_registryDelete _ a
  · intro x hx
    rw [hres]
    show ((registryGet registry a).flatMap entryEvents ++ entryEvents opened).count
        (CloseEvent.stream x.id) = 1
    rw [List.count_append, count_stream_flatMap_zero _ _ (hFreshStreams x hx),
      count_stream_entryEvents,
      List.count_eq_one_of_mem hNodup (List.mem_map.mpr ⟨x, hx, rfl⟩)]
  · rw [hres]
    show ((registryGet registry a).flatMap entryEvents ++ entryEvents opened).count
        (CloseEvent.listenerStop opened.listener.id) = 1
    rw [List.count_append, count_listener_flatMap_zero _ _ hFreshListener,
      count_listener_entryEvents, if_pos rfl]

/-- Witness for C5 at a concrete input: empty registry, a fresh entry set
with stream handle 0 and listener handle 1, every close succeeding. -/
theorem subscribe_unsubscribe_roundtrip_witness :
    ((UNSUBSCRIBE (SUBSCRIBE [] (some "A") cleanOpenedEntry) "A").registry.find?
        (fun p => p.1 == "A") = none)
    ∧ (UNSUBSCRIBE (SUBSCRIBE [] (some "A") cleanOpenedEntry) "A").closeCalls.count
        (CloseEvent.stream 0) = 1
    ∧ (UNSUBSCRIBE (SUBSCRIBE [] (some "A") cleanOpenedEntry) "A").closeCalls.count
        (CloseEvent.listenerStop 1) = 1 := by
  have h := subscribe_unsubscribe_roundtrip [] "A" cleanOpenedEntry
    (by decide) (by decide) (by decide) (by decide) (by decide)
  exact ⟨h.1, h.2.1 ⟨0, false⟩ (by decide), h.2.2⟩

/-! ## Session controller lemmas and cosignatory-invariant claims -/

theorem setSigner_preserves_invariant (env : AddressEnv) (pk : String)
    (s : SessionState) (h : cosignatoryInvariant s) :
    cosignatoryInvariant (SET_CURRENT_SIGNER env s pk).1 := by
  unfold SET_CURRENT_SIGNER
  by_cases hpk : pk = ""
  · rw [if_pos hpk]
    exact h
  · rw [if_neg hpk]
    by_cases hsame : s.currentSignerAddress = some (env.fromPublicKey pk)
    · rw [if_pos hsame]
      exact h
    · rw [if_neg hsame]
      cases hacc : s.currentAccount with
      | none => exact h
      | some acc =>
        unfold cosignatoryInvariant
        simp

theorem setAccount_preserves_invariant (env : AddressEnv) (acc : AccountModel)
    (s : SessionState) (h : cosignatoryInvariant s) :
    cosignatoryInvariant (SET_CURRENT_ACCOUNT env s acc).1 := by
  unfold SET_CURRENT_ACCOUNT
  by_cases hsame : s.currentAccount.map (fun a => a.address) = some acc.address
  · rw [if_pos hsame]
    exact h
  · rw [if_neg hsame]
    have h1 : cosignatoryInvariant { s with currentAccount := some acc } := h
    have h2 := setSigner_preserves_invariant env acc.publicKey _ h1
    dsimp only
    split
    · exact h2
    · exact h2

theorem sessionStepNR_preserves_invariant (s s' : SessionState)
    (st : SessionStepNR s s') (h : cosignatoryInvariant s) :
    cosignatoryInvariant s' := by
  cases st with
  | setSigner env pk s => exact setSigner_preserves_invariant env pk s h
  | setAccount env acc s => exact setAccount_preserves_invariant env acc s h
  | sessionInit s address =>
    unfold INITIALIZE
    split
    · exact h
    · exact h
  | sessionUninit s => exact h

/-- C6 counterexample: the claim states the invariant for every state
reachable by the store operations.  The reachable state
`resetSessionState` — obtained by `SET_CURRENT_ACCOUNT(demoAccount)` (which
puts the session in cosignatory mode, signer address 1 vs account address 2)
followed by `RESET_CURRENT_ACCOUNT` — has `isCosignatoryMode = true` while
both addresses are null and therefore equal: `RESET_CURRENT_ACCOUNT` clears
the addresses but not the flag. -/
theorem reset_breaks_cosignatory_invariant :
    Relation.ReflTransGen SessionStep initialSessionState resetSessionState
    ∧ resetSessionState.isCosignatoryMode = true
    ∧ resetSessionState.currentSignerAddress = resetSessionState.currentAccountAddress := by
  refine ⟨?_, rfl, rfl⟩
  have e1 : (SET_CURRENT_ACCOUNT demoAddressEnv initialSessionState demoAccount).1
      = cosignatorySessionState := by decide
  have h1 := SessionStep.setAccount demoAddressEnv demoAccount initialSessionState
  rw [e1] at h1
  have e2 : RESET_CURRENT_ACCOUNT cosignatorySessionState = resetSessionState := by decide
  have h2 := SessionStep.reset cosignatorySessionState
  rw [e2] at h2
  exact Relation.ReflTransGen.head h1 (Relation.ReflTransGen.single h2)

/-- C6 as amended: in every session state reachable from the initial state
by the store operations other than `RESET_CURRENT_ACCOUNT`,
`isCosignatoryMode` is true exactly when `currentSignerAddress` differs from
`currentAccountAddress`; `RESET_CURRENT_ACCOUNT` nulls both addresses
without clearing the flag and can therefore break the equivalence. -/
theorem cosignatory_invariant_without_reset (s : SessionState)
    (h : Relation.ReflTransGen SessionStepNR initialSessionState s) :
    s.isCosignatoryMode = true ↔ s.currentSignerAddress ≠ s.currentAccountAddress := by
  induction h with
  | refl => decide
  | tail _ st ih => exact sessionStepNR_preserves_invariant _ _ st ih

/-- Witness for C6 at a concrete input: the empty reachability chain at the
initial state. -/
theorem cosignatory_invariant_without_reset_witness :
    initialSessionState.isCosignatoryMode = true
      ↔ initialSessionState.currentSignerAddress ≠ initialSessionState.currentAccountAddress :=
  cosignatory_invariant_without_reset initialSessionState Relation.ReflTransGen.refl
